import Mathlib

/-!
Verification of the BDIX connectivity tester (`BDIXTester.py`).

The program probes a list of endpoints with HTTP GET requests, classifies
each as reachable or not, and can persist the reachable subset.  Network,
filesystem and float-parsing effects are modelled as explicit oracles:

* `net : String → HttpOutcome` gives the outcome of `requests.get` on a url
  (at the current timeout); `HttpOutcome.exn` covers timeouts, connection
  errors and every other exception raised by the request.
* `fetch : ℚ → FetchResult` gives the outcome of `requests.get(bdix_url,
  timeout=t)` combined with `raise_for_status`; the argument is the timeout
  passed to the request.
* The filesystem state for `bdix.txt` is `Option String`: `none` when the
  file does not exist, `some c` when it exists with content `c`
  (`os.path.getsize == 0` corresponds to `some ""`).
* Python exceptions inside a `try` body are an `Except` error channel.

Console output is modelled by the inductive `Msg` type; string
interpolation details of the real messages are abstracted into the
constructors' arguments.
-/

namespace BDIX

/-- Python `str.startswith(pre)` for one candidate, via character lists. -/
def strStartsWith (s pre : String) : Bool :=
  pre.data.isPrefixOf s.data

/-- The characters removed by Python `str.strip()` (ASCII whitespace). -/
def pyIsSpace (c : Char) : Bool :=
  c == ' ' || c == '\t' || c == '\n' || c == '\r' || c == '\x0b' || c == '\x0c'

/-- Python `str.strip()` on a character list: drop whitespace at both ends. -/
def pyStripL (cs : List Char) : List Char :=
  ((cs.dropWhile pyIsSpace).reverse.dropWhile pyIsSpace).reverse

/-- Python `str.strip()`. -/
def pyStrip (s : String) : String :=
  ⟨pyStripL s.data⟩

/-- Split a character stream at every newline character.  Iterating a text
file in Python yields exactly these pieces (each with its trailing newline,
which `strip()` removes; the final empty piece corresponds to the iteration
ending, so mapping `strip` and keeping non-blank lines agrees with
`[line.strip() for line in file if line.strip()]`). -/
def splitNl : List Char → List (List Char)
  | [] => [[]]
  | c :: cs =>
    if c = '\n' then [] :: splitNl cs
    else
      match splitNl cs with
      | [] => [[c]]
      | p :: ps => (c :: p) :: ps

/-- `[line.strip() for line in file if line.strip()]` applied to a file
content (`load_websites`, line 65). -/
def parse_websites (content : String) : List String :=
  ((splitNl content.data).map fun l => (⟨pyStripL l⟩ : String)).filter fun l => l != ""

/-- The file content produced by the write loop of `save_results`
(lines 100-102): each site followed by a newline, in order. -/
def saved_content : List String → String
  | [] => ""
  | s :: rest => s ++ "\n" ++ saved_content rest

/-- Outcome of one `requests.get(url, timeout=...)` call in `test_website`:
either a completed response with a status code, or any exception
(timeout, connection error, protocol error, ...). -/
inductive HttpOutcome
  | ok (status : Nat)
  | exn
deriving DecidableEq

/-- Scheme normalization at the start of `test_website` (lines 80-81):
prepend `http://` unless the url already starts with `http://` or
`https://`. -/
def normalize (url : String) : String :=
  if strStartsWith url "http://" || strStartsWith url "https://" then url
  else "http://" ++ url

/-- The `try` body of `test_website` (lines 83-86): issue the GET on the
already-normalized url and test `status_code == 200`; an exception goes to
the error channel (to be caught by the bare `except`). -/
def test_website_request (net : String → HttpOutcome) (url : String) :
    Except Unit (String × Bool) :=
  match net url with
  | .ok status => .ok (url, status == 200)
  | .exn => .error ()

/-- `BDIXTester.test_website` (lines 78-88): normalize the url, run the
request, and let the bare `except` turn every exception into
`(url, False)`. -/
def test_website (net : String → HttpOutcome) (url0 : String) :
    Except Unit (String × Bool) :=
  let url := normalize url0
  match test_website_request net url with
  | .ok r => .ok r
  | .error _ => .ok (url, false)

/-- The classification a probe assigns to a request outcome. -/
def reachable : HttpOutcome → Bool
  | .ok status => status == 200
  | .exn => false

/-- The probe result for one endpoint (derived form of `test_website`,
see `test_website_eq_probe`). -/
def probe (net : String → HttpOutcome) (u : String) : String × Bool :=
  (normalize u, reachable (net (normalize u)))

/-- The submission loop of `run_tests` (lines 134-138): one
`test_website` task per entry of `websites`; `future.result()` re-raises a
task's exception into the surrounding `try`, which `mapM` models. -/
def run_batch (net : String → HttpOutcome) :
    List String → Except Unit (List (String × Bool))
  | [] => .ok []
  | u :: rest => do
    let r ← test_website net u
    let rs ← run_batch net rest
    return r :: rs

/-- The batch results in submission order; completion order
(`as_completed`) is an arbitrary permutation of these. -/
def batch_results (net : String → HttpOutcome) (websites : List String) :
    List (String × Bool) :=
  websites.map (probe net)

/-- A Python float value as stored in `self.timeout`: `float(s)` can
produce a finite value, an infinity, or a nan.  No arithmetic is done on
the value by the program, so only its identity matters. -/
inductive PyFloat
  | finite (q : ℚ)
  | inf
  | negInf
  | nan
deriving DecidableEq

/-- Console output, one constructor per `console.print` site that the
claims refer to (interpolated details become constructor arguments). -/
inductive Msg
  | timeoutSet (v : PyFloat)
  | invalidTimeout
  | downloading
  | downloadOk
  | downloadErr
  | loadedOk (n : Nat)
  | emptyErr
  | loadErr
  | reloadedOk
  | noWebsitesLoaded
  | siteWorking (url : String)
  | siteNotWorking (url : String)
  | summary (total working : Nat)
  | resultsSaved
  | saveErr
  | testingError
deriving DecidableEq

/-- The mutable fields of a `BDIXTester` object that the claims touch. -/
structure TesterState where
  websites : List String
  working_sites : List String
  timeout : PyFloat
deriving DecidableEq

/-- `BDIXTester.__init__` (lines 14-19): empty lists, timeout 5. -/
def initState : TesterState :=
  { websites := [], working_sites := [], timeout := .finite 5 }

/-- `BDIXTester.set_timeout` (lines 21-28).  The argument is the result of
`float(timeout)`: `some v` when the string parses, `none` when `float`
raises `ValueError`.  On failure the code prints the rejection message and
assigns the default `5`. -/
def set_timeout (st : TesterState) (parsed : Option PyFloat) :
    TesterState × List Msg :=
  match parsed with
  | some v => ({ st with timeout := v }, [Msg.timeoutSet v])
  | none => ({ st with timeout := .finite 5 }, [Msg.invalidTimeout])

/-- Outcome of `requests.get(self.bdix_url, timeout=t)` followed by
`raise_for_status()`: either the response body, or a failure (network
exception or raising status code). -/
inductive FetchResult
  | success (body : String)
  | failure
deriving DecidableEq

/-- `BDIXTester.download_bdix_file` (lines 30-49): fetch the list with
`timeout=10`; on success write the body to `bdix.txt` and return `True`,
on any exception leave the filesystem as it is and return `False`.
Returns (return value, new `bdix.txt` state, console output). -/
def download_bdix_file (fetch : ℚ → FetchResult) (fs : Option String) :
    Bool × Option String × List Msg :=
  match fetch 10 with
  | .success body => (true, some body, [Msg.downloading, Msg.downloadOk])
  | .failure => (false, fs, [Msg.downloading, Msg.downloadErr])

/-- Reading and parsing `bdix.txt` (lines 63-72): opening a missing file
raises (caught by the outer `except` of `load_websites`); an existing file
is split into stripped non-blank lines, and an empty line list is the
"bdix.txt is empty" failure. -/
def read_and_parse (fs : Option String) : Option (List String) × List Msg :=
  match fs with
  | none => (none, [Msg.loadErr])
  | some c =>
    let ws := parse_websites c
    if ws.isEmpty then (none, [Msg.emptyErr])
    else (some ws, [Msg.loadedOk ws.length])

/-- `BDIXTester.load_websites` (lines 51-76): when `bdix.txt` is missing
or has size 0, first download it (failure there aborts with `False`);
then read the file and keep the stripped non-blank lines.  Returns
(`self.websites` on success / `none` on failure, new `bdix.txt` state,
console output). -/
def load_websites (fetch : ℚ → FetchResult) (fs : Option String) :
    Option (List String) × Option String × List Msg :=
  if fs = none ∨ fs = some "" then
    match download_bdix_file fetch fs with
    | (true, fs', ms) =>
      let (r, ms2) := read_and_parse fs'
      (r, fs', ms ++ ms2)
    | (false, fs', ms) => (none, fs', ms)
  else
    let (r, ms2) := read_and_parse fs
    (r, fs, ms2)

/-- `BDIXTester.save_results` (lines 90-106).  `writeOk` is whether
opening/writing the timestamped file succeeds; on failure the exception is
caught and reported.  Returns (object state, content written to the result
file if any, console output).  `self.working_sites` is never assigned. -/
def save_results (writeOk : Bool) (st : TesterState) :
    TesterState × Option String × List Msg :=
  if writeOk then (st, some (saved_content st.working_sites), [Msg.resultsSaved])
  else (st, none, [Msg.saveErr])

/-- Result of one `run_tests` call: new object state, new `bdix.txt`
state, the batch of probe results (`none` when no batch ran), console
output. -/
structure RunResult where
  st : TesterState
  fs : Option String
  batch : Option (List (String × Bool))
  msgs : List Msg
deriving DecidableEq

/-- The testing phase of `run_tests` (lines 124-150): reset
`working_sites`, run one `test_website` per entry of `websites`, append
the reachable ones to `working_sites`, print per-site and summary lines.
The `Except.error` branch is the outer `except Exception` (line 152),
unreachable because `test_website` never raises. -/
def run_batch_phase (net : PyFloat → String → HttpOutcome)
    (st : TesterState) (fs : Option String) (ms : List Msg) : RunResult :=
  match run_batch (net st.timeout) st.websites with
  | .ok results =>
    let working := (results.filter fun r => r.2).map Prod.fst
    { st := { st with working_sites := working }
      fs := fs
      batch := some results
      msgs := ms ++ (results.map fun r =>
          if r.2 then Msg.siteWorking r.1 else Msg.siteNotWorking r.1)
        ++ [Msg.summary st.websites.length working.length] }
  | .error _ =>
    { st := { st with working_sites := [] }
      fs := fs
      batch := none
      msgs := ms ++ [Msg.testingError] }

/-- `BDIXTester.run_tests` (lines 108-154): when `self.websites` is empty,
reload it via `load_websites`; a failed reload reports and returns before
any probe.  Otherwise probe every website. -/
def run_tests (net : PyFloat → String → HttpOutcome)
    (fetch : ℚ → FetchResult) (st : TesterState) (fs : Option String) :
    RunResult :=
  if st.websites.isEmpty then
    match load_websites fetch fs with
    | (some ws, fs', ms) =>
      run_batch_phase net { st with websites := ws } fs' (ms ++ [Msg.reloadedOk])
    | (none, fs', ms) =>
      { st := st, fs := fs', batch := none, msgs := ms ++ [Msg.noWebsitesLoaded] }
  else
    run_batch_phase net st fs []

theorem strStartsWith_append (pre s : String) :
    strStartsWith (pre ++ s) pre = true := by
  have hdata : (pre ++ s).data = pre.data ++ s.data := rfl
  simp only [strStartsWith, hdata, List.isPrefixOf_iff_prefix]
  exact List.prefix_append _ _

theorem normalize_idem (s : String) : normalize (normalize s) = s ∨
    normalize (normalize s) = "http://" ++ s := by
  by_cases h : (strStartsWith s "http://" || strStartsWith s "https://") = true
  · left
    simp [normalize, h]
  · right
    have h1 : normalize s = "http://" ++ s := by simp [normalize, h]
    have h2 : strStartsWith ("http://" ++ s) "http://" = true :=
      strStartsWith_append _ _
    rw [h1]
    simp [normalize, h2]

theorem test_website_eq_probe (net : String → HttpOutcome) (u : String) :
    test_website net u = .ok (probe net u) := by
  simp only [test_website, test_website_request, probe, reachable]
  cases net (normalize u) <;> rfl

theorem run_batch_eq (net : String → HttpOutcome) (websites : List String) :
    run_batch net websites = .ok (batch_results net websites) := by
  induction websites with
  | nil => rfl
  | cons u rest ih =>
    simp [run_batch, batch_results, test_website_eq_probe, ih]
    rfl

theorem strdata_append (a b : String) : (a ++ b).data = a.data ++ b.data := rfl

theorem splitNl_append_cons (a : List Char) (cs : List Char) (h : '\n' ∉ a) :
    splitNl (a ++ '\n' :: cs) = a :: splitNl cs := by
  induction a with
  | nil => simp [splitNl]
  | cons c a' ih =>
    simp only [List.mem_cons, not_or] at h
    obtain ⟨h1, h2⟩ := h
    show splitNl (c :: (a' ++ '\n' :: cs)) = (c :: a') :: splitNl cs
    simp only [splitNl]
    rw [if_neg fun hh => h1 hh.symm, ih h2]

theorem parse_saved (sites : List String)
    (h : ∀ s ∈ sites, s ≠ "" ∧ ('\n' ∉ s.data) ∧ pyStrip s = s) :
    parse_websites (saved_content sites) = sites := by
  induction sites with
  | nil => rfl
  | cons s rest ih =>
    obtain ⟨hs, hnl, hstrip⟩ := h s (List.mem_cons_self _ _)
    have hrest : ∀ t ∈ rest, t ≠ "" ∧ ('\n' ∉ t.data) ∧ pyStrip t = t :=
      fun t ht => h t (List.mem_cons_of_mem _ ht)
    have hdata : (saved_content (s :: rest)).data =
        s.data ++ '\n' :: (saved_content rest).data := by
      show (s ++ "\n" ++ saved_content rest).data = _
      simp [strdata_append, List.append_assoc]
    show parse_websites (saved_content (s :: rest)) = s :: rest
    unfold parse_websites
    rw [hdata, splitNl_append_cons _ _ hnl]
    simp only [List.map_cons, List.filter_cons]
    have hfix : (⟨pyStripL s.data⟩ : String) = s := hstrip
    rw [hfix]
    have hbne : (s != "") = true := by simp [hs]
    rw [if_pos hbne]
    have htail : parse_websites (saved_content rest) = rest := ih hrest
    unfold parse_websites at htail
    rw [htail]

theorem run_batch_phase_eq (net : PyFloat → String → HttpOutcome)
    (st : TesterState) (fs : Option String) (ms : List Msg) :
    (run_batch_phase net st fs ms).batch =
        some (batch_results (net st.timeout) st.websites)
    ∧ (run_batch_phase net st fs ms).st.websites = st.websites
    ∧ (run_batch_phase net st fs ms).st.timeout = st.timeout
    ∧ (run_batch_phase net st fs ms).fs = fs
    ∧ (run_batch_phase net st fs ms).st.working_sites =
        ((batch_results (net st.timeout) st.websites).filter
          (fun r => r.2)).map Prod.fst := by
  refine ⟨?_, ?_, ?_, ?_, ?_⟩ <;> simp [run_batch_phase, run_batch_eq]

theorem read_and_parse_some (fs : Option String) (ws : List String)
    (h : (read_and_parse fs).1 = some ws) :
    ws ≠ [] ∧ ∀ s ∈ ws, s ≠ "" := by
  match fs with
  | none => simp [read_and_parse] at h
  | some c =>
    simp only [read_and_parse] at h
    by_cases he : (parse_websites c).isEmpty
    · rw [if_pos he] at h
      simp at h
    · rw [if_neg he] at h
      simp only [Option.some.injEq] at h
      subst h
      refine ⟨by simpa [List.isEmpty_iff] using he, fun s hs => ?_⟩
      unfold parse_websites at hs
      have := List.of_mem_filter hs
      simpa using this

theorem load_websites_some (fetch : ℚ → FetchResult) (fs : Option String)
    (ws : List String) (h : (load_websites fetch fs).1 = some ws) :
    ws ≠ [] ∧ ∀ s ∈ ws, s ≠ "" := by
  unfold load_websites at h
  by_cases hc : fs = none ∨ fs = some ""
  · rw [if_pos hc] at h
    unfold download_bdix_file at h
    cases hf : fetch 10 with
    | success body =>
      rw [hf] at h
      exact read_and_parse_some (some body) ws h
    | failure =>
      rw [hf] at h
      simp at h
  · rw [if_neg hc] at h
    exact read_and_parse_some fs ws h

/-- C2: a single probe classifies reachable=true exactly when the GET
request on the normalized url completes with status code 200; every other
status code, any timeout, connection failure or exception yields the same
value false in the same-shaped result. -/
theorem C2_probe_classification (net : String → HttpOutcome) (url : String) :
    ∃ b : Bool, test_website net url = Except.ok (normalize url, b) ∧
      (b = true ↔ net (normalize url) = HttpOutcome.ok 200) := by
  refine ⟨reachable (net (normalize url)), ?_, ?_⟩
  · rw [test_website_eq_probe]
    rfl
  · cases h : net (normalize url) with
    | ok s => simp [reachable]
    | exn => simp [reachable]

/-- C4: scheme normalization is idempotent — urls already starting with
http:// or https:// pass through unchanged, urls with neither get exactly
one http:// in front, and renormalizing changes nothing. -/
theorem C4_normalize_idempotent (s : String) :
    normalize (normalize s) = normalize s
    ∧ ((strStartsWith s "http://" || strStartsWith s "https://") = true →
        normalize s = s)
    ∧ ((strStartsWith s "http://" || strStartsWith s "https://") = false →
        normalize s = "http://" ++ s) := by
  by_cases h : (strStartsWith s "http://" || strStartsWith s "https://") = true
  · have h1 : normalize s = s := by simp [normalize, h]
    refine ⟨by rw [h1, h1], fun _ => h1, fun hf => ?_⟩
    rw [h] at hf
    exact absurd hf (by simp)
  · have h1 : normalize s = "http://" ++ s := by simp [normalize, h]
    refine ⟨?_, fun ht => absurd ht h, fun _ => h1⟩
    rw [h1]
    simp [normalize, strStartsWith_append]

/-- C4 witness: concrete inputs, one without a scheme and one with. -/
theorem C4_normalize_idempotent_witness :
    normalize (normalize "a.example") = normalize "a.example"
    ∧ normalize "a.example" = "http://" ++ "a.example"
    ∧ normalize "https://b.example" = "https://b.example" :=
  ⟨(C4_normalize_idempotent "a.example").1,
   (C4_normalize_idempotent "a.example").2.2 (by decide),
   (C4_normalize_idempotent "https://b.example").2.1 (by decide)⟩

/-- C9: test_website is total — for every input string and every request
outcome (any status, timeout, connection error, or exception, all caught by
the bare except) it returns an (url, bool) pair on the ok channel, never an
exception; hence the batch loop's error branch never fires. -/
theorem C9_test_website_total (net : String → HttpOutcome) (url : String)
    (websites : List String) :
    (∃ r, test_website net url = Except.ok r)
    ∧ ∃ results, run_batch net websites = Except.ok results :=
  ⟨⟨probe net url, test_website_eq_probe net url⟩,
   ⟨batch_results net websites, run_batch_eq net websites⟩⟩

/-- C10: set_timeout stores every successfully parsed float value —
zero, negative, infinite or nan alike — and reports success; no
positivity or finiteness check exists. -/
theorem C10_set_timeout_accepts_any_float (st : TesterState) (v : PyFloat) :
    set_timeout st (some v) = ({ st with timeout := v }, [Msg.timeoutSet v]) :=
  rfl

/-- C3 counterexample: with the timeout previously set to 7, a
non-numeric input does not retain 7 — the code assigns the default 5. -/
theorem C3_counterexample :
    (set_timeout { initState with timeout := PyFloat.finite 7 } none).1.timeout ≠
      PyFloat.finite 7
    ∧ (set_timeout { initState with timeout := PyFloat.finite 7 } none).1.timeout =
      PyFloat.finite 5 := by
  constructor
  · simp [set_timeout]
  · rfl

/-- C3 amended: a malformed timeout input is rejected with a message and
the timeout is reset to the default 5 (not the prior value); the other
fields are untouched and the program continues. -/
theorem C3_invalid_timeout_resets_default (st : TesterState) :
    set_timeout st none =
      ({ st with timeout := PyFloat.finite 5 }, [Msg.invalidTimeout]) :=
  rfl

/-- C7: save_results never touches the in-memory working-set list; on a
write failure it reports the error and writes nothing, so the same data
can be saved again (and a successful retry writes exactly the
one-site-per-line content). -/
theorem C7_save_failure_atomic (writeOk : Bool) (st : TesterState) :
    (save_results writeOk st).1 = st
    ∧ (save_results false st).2.1 = none
    ∧ (save_results false st).2.2 = [Msg.saveErr]
    ∧ (save_results true st).2.1 = some (saved_content st.working_sites) := by
  refine ⟨?_, rfl, rfl, rfl⟩
  cases writeOk <;> rfl

/-- C8 counterexample: the working set ["a "] satisfies the claim's
hypothesis (non-empty, no internal newline) yet does not survive the
persist/re-read round trip as a set, because re-reading trims the
trailing space. -/
theorem C8_counterexample :
    (("a " : String) ≠ "" ∧ '\n' ∉ ("a " : String).data)
    ∧ (parse_websites (saved_content ["a "])).toFinset ≠
      (["a "] : List String).toFinset := by
  refine ⟨⟨by decide, by decide⟩, by decide⟩

/-- C8 amended: the persist/re-read round trip is the identity (hence
set-equality) for working sets whose elements are non-empty, contain no
newline, and are unchanged by whitespace trimming — which is what the
program constructs, since endpoints come from stripped lines. -/
theorem C8_roundtrip (sites : List String)
    (h : ∀ s ∈ sites, s ≠ "" ∧ ('\n' ∉ s.data) ∧ pyStrip s = s) :
    parse_websites (saved_content sites) = sites
    ∧ (parse_websites (saved_content sites)).toFinset = sites.toFinset := by
  have hmain := parse_saved sites h
  exact ⟨hmain, by rw [hmain]⟩

/-- C8 witness: the round trip on a concrete working set. -/
theorem C8_roundtrip_witness :
    parse_websites (saved_content ["http://a.example", "https://b.example"]) =
      ["http://a.example", "https://b.example"]
    ∧ (parse_websites (saved_content
        ["http://a.example", "https://b.example"])).toFinset =
      (["http://a.example", "https://b.example"] : List String).toFinset :=
  C8_roundtrip ["http://a.example", "https://b.example"] (by decide)

/-- C1 counterexample: for the input ["a.example"] the batch yields one
result, but its endpoint string is the normalized "http://a.example", so
the set of endpoint strings in the results differs from the set of input
endpoint strings. -/
theorem C1_counterexample :
    run_batch (fun _ => HttpOutcome.exn) ["a.example"] =
      Except.ok [("http://a.example", false)]
    ∧ ([("http://a.example", false)].map Prod.fst).toFinset ≠
      (["a.example"] : List String).toFinset := by
  refine ⟨rfl, by decide⟩

/-- C1 amended: every completion order of the batch yields exactly N
results; the set of endpoint strings in the results equals the set of
NORMALIZED input endpoints (http:// prepended where no scheme was
present), none dropped and none added; and every input endpoint — also
one whose request failed — contributes a result. -/
theorem C1_batch_complete (net : String → HttpOutcome) (websites : List String)
    (completed : List (String × Bool))
    (hperm : completed.Perm (batch_results net websites)) :
    completed.length = websites.length
    ∧ (completed.map Prod.fst).toFinset = (websites.map normalize).toFinset
    ∧ ∀ u ∈ websites, ∃ b, (normalize u, b) ∈ completed := by
  refine ⟨?_, ?_, ?_⟩
  · rw [hperm.length_eq]
    simp [batch_results]
  · have h2 := List.toFinset_eq_of_perm _ _ (hperm.map Prod.fst)
    have h3 : (batch_results net websites).map Prod.fst =
        websites.map normalize := by
      simp [batch_results, probe, List.map_map]
    rw [h2, h3]
  · intro u hu
    refine ⟨reachable (net (normalize u)), hperm.mem_iff.mpr ?_⟩
    simp only [batch_results, List.mem_map]
    exact ⟨u, hu, rfl⟩

/-- C1 witness: a two-endpoint batch in its submission completion order. -/
theorem C1_batch_complete_witness :
    ([("http://a.example", false), ("https://b.example", true)] :
        List (String × Bool)).length =
      (["a.example", "https://b.example"] : List String).length
    ∧ (([("http://a.example", false), ("https://b.example", true)] :
        List (String × Bool)).map Prod.fst).toFinset =
      ((["a.example", "https://b.example"] : List String).map normalize).toFinset
    ∧ ∀ u ∈ (["a.example", "https://b.example"] : List String),
        ∃ b, (normalize u, b) ∈
          ([("http://a.example", false), ("https://b.example", true)] :
            List (String × Bool)) := by
  have hb : batch_results
      (fun u => if u = "https://b.example" then HttpOutcome.ok 200
        else HttpOutcome.exn)
      ["a.example", "https://b.example"] =
      [("http://a.example", false), ("https://b.example", true)] := by decide
  exact C1_batch_complete
    (fun u => if u = "https://b.example" then HttpOutcome.ok 200
      else HttpOutcome.exn)
    ["a.example", "https://b.example"]
    [("http://a.example", false), ("https://b.example", true)]
    (hb ▸ List.Perm.refl _)

/-- C5 counterexample: with a non-empty local cache present the loader
returns the cached lines without consulting the remote list at all —
here the remote would have supplied "remote.example", yet the result is
the local "local.example". -/
theorem C5_counterexample :
    (load_websites (fun _ => FetchResult.success "remote.example\n")
      (some "local.example\n")).1 = some ["local.example"]
    ∧ (load_websites (fun _ => FetchResult.success "remote.example\n")
      (some "local.example\n")).1 ≠ some ["remote.example"] := by
  refine ⟨by decide, by decide⟩

/-- C5 amended: the loader prefers the cached local copy — when it is
present and non-empty the result is its stripped non-blank lines and the
remote is never consulted; only when the cache is absent or empty does it
download, with the fixed timeout 10, caching the fetched body; every
surfaced list is non-empty with non-empty entries. -/
theorem C5_loader_local_first (fetch fetch' : ℚ → FetchResult)
    (fs : Option String) (c : String) :
    (fetch 10 = fetch' 10 →
      load_websites fetch fs = load_websites fetch' fs)
    ∧ (c ≠ "" →
      load_websites fetch (some c) =
        ((read_and_parse (some c)).1, some c, (read_and_parse (some c)).2))
    ∧ (fs = none ∨ fs = some "" →
      load_websites fetch fs =
        match fetch 10 with
        | .success body =>
          ((read_and_parse (some body)).1, some body,
            [Msg.downloading, Msg.downloadOk] ++ (read_and_parse (some body)).2)
        | .failure => (none, fs, [Msg.downloading, Msg.downloadErr]))
    ∧ ∀ ws, (load_websites fetch fs).1 = some ws →
        ws ≠ [] ∧ ∀ s ∈ ws, s ≠ "" := by
  refine ⟨?_, ?_, ?_, fun ws h => load_websites_some fetch fs ws h⟩
  · intro hf
    unfold load_websites download_bdix_file
    rw [hf]
  · intro hc
    have hnot : ¬(some c = none ∨ some c = some "") := by simp [hc]
    unfold load_websites
    rw [if_neg hnot]
  · intro hfs
    unfold load_websites download_bdix_file
    rw [if_pos hfs]
    cases fetch 10 <;> rfl

/-- C5 witness: a present non-empty cache is surfaced as its stripped
lines even though the remote fetch would fail. -/
theorem C5_loader_local_first_witness :
    load_websites (fun _ => FetchResult.failure) (some " a.example \n") =
      (some ["a.example"], some " a.example \n", [Msg.loadedOk 1]) := by
  have h := (C5_loader_local_first (fun _ => FetchResult.failure)
    (fun _ => FetchResult.failure) none " a.example \n").2.1 (by decide)
  rw [h]
  decide

/-- C6: a batch halts with no probe attempted exactly when the endpoint
list is empty and reloading fails (SourceUnavailable), and that is
reported; in every other situation — whatever the probe outcomes — the
batch runs to completion with one result per endpoint. -/
theorem C6_source_unavailable_halts (net : PyFloat → String → HttpOutcome)
    (fetch : ℚ → FetchResult) (st : TesterState) (fs : Option String) :
    (st.websites = [] → (load_websites fetch fs).1 = none →
      run_tests net fetch st fs =
        { st := st, fs := (load_websites fetch fs).2.1, batch := none,
          msgs := (load_websites fetch fs).2.2 ++ [Msg.noWebsitesLoaded] })
    ∧ (st.websites ≠ [] →
      ∃ results, (run_tests net fetch st fs).batch = some results ∧
        results.length = st.websites.length)
    ∧ ∀ ws, st.websites = [] → (load_websites fetch fs).1 = some ws →
      ∃ results, (run_tests net fetch st fs).batch = some results ∧
        results.length = ws.length := by
  refine ⟨?_, ?_, ?_⟩
  · intro h1 h2
    have hempty : st.websites.isEmpty = true := by simp [h1]
    rcases hlw : load_websites fetch fs with ⟨r, fs2, ms⟩
    rw [hlw] at h2
    simp only at h2
    subst h2
    simp [run_tests, hempty, hlw]
  · intro hne
    have hempty : st.websites.isEmpty = false := by
      simpa [List.isEmpty_iff] using hne
    refine ⟨batch_results (net st.timeout) st.websites, ?_, by
      simp [batch_results]⟩
    have hphase := (run_batch_phase_eq net st fs []).1
    simp only [run_tests, hempty]
    simpa using hphase
  · intro ws h1 h2
    have hempty : st.websites.isEmpty = true := by simp [h1]
    rcases hlw : load_websites fetch fs with ⟨r, fs2, ms⟩
    rw [hlw] at h2
    simp only at h2
    subst h2
    refine ⟨batch_results (net st.timeout) ws, ?_, by simp [batch_results]⟩
    have hphase := (run_batch_phase_eq net { st with websites := ws } fs2
      (ms ++ [Msg.reloadedOk])).1
    simp only [run_tests, hempty, hlw]
    simpa using hphase

/-- C6 witness: no endpoints and a failing reload yield a halted batch
with no probe and a report; a loaded list yields a full batch. -/
theorem C6_source_unavailable_halts_witness :
    run_tests (fun _ _ => HttpOutcome.exn) (fun _ => FetchResult.failure)
      initState none =
      { st := initState, fs := none, batch := none,
        msgs := [Msg.downloading, Msg.downloadErr, Msg.noWebsitesLoaded] } := by
  have h := (C6_source_unavailable_halts (fun _ _ => HttpOutcome.exn)
    (fun _ => FetchResult.failure) initState none).1 rfl (by decide)
  rw [h]
  decide

end BDIX
